import Mathlib

/-!
Shallow embedding of `src/server.js` (a telemetry ingestion and dashboard
service built on Express) and proofs about its request handlers.

Request bodies are parsed JSON, modelled by the `JVal` type below.  The
in-memory `analyticsStore` (server.js lines 35-40) and the on-disk JSON
files (logs/, users/, stats/ trees and export snapshots) are modelled as
association lists with JavaScript `Map.set` / `writeFileSync` overwrite
semantics.  Each HTTP handler becomes a Lean function from the current
server state and the request data to a response plus the new state;
exceptions thrown inside a handler's `try` block (e.g. a `TypeError` from
reading a property of `undefined`) are modelled with `Except`, and the
`catch` branch maps them to a 500 response, keeping whatever file writes
happened before the throw.
-/

/-- JavaScript values as delivered by Express's JSON body parser, plus
`undefined` (needed because destructuring a missing field yields
`undefined`, not an error). -/
inductive JVal where
  | jnull
  | jundef
  | jbool (b : Bool)
  | jnum (n : Int)
  | jstr (s : String)
  | jarr (elems : List JVal)
  | jobj (fields : List (String × JVal))


namespace JVal

/-- JavaScript truthiness: `undefined`, `null`, `false`, `0` and `""` are
falsy; every object and array is truthy. -/
def truthy : JVal → Bool
  | jnull => false
  | jundef => false
  | jbool b => b
  | jnum n => n != 0
  | jstr s => s != ""
  | jarr _ => true
  | jobj _ => true

/-- Whether a value is `null` or `undefined` (property access on these
throws a `TypeError` in JavaScript). -/
def isNullish : JVal → Bool
  | jnull => true
  | jundef => true
  | _ => false

/-- Property lookup on a non-nullish value: a missing field (or access on
a primitive) yields `undefined`, as in JavaScript.  Callers must check
for nullish receivers separately (see `propE`). -/
def prop : JVal → String → JVal
  | jobj fields, k => ((fields.find? (fun p => p.1 = k)).map (fun p => p.2)).getD jundef
  | _, _ => jundef

/-- Property access with JavaScript's `TypeError` on a nullish receiver,
as thrown by `data.requests` when `data` is `undefined`
(server.js line 190). -/
def propE (v : JVal) (k : String) : Except String JVal :=
  if v.isNullish then .error "TypeError: cannot read properties of null or undefined"
  else .ok (v.prop k)

/-- Spreading a value into `Array.prototype.push(...)`: arrays spread to
their elements, strings to their characters, everything else throws
(plain objects are not iterable).  Models `push(...data.requests)` at
server.js line 194. -/
def spreadElems : JVal → Except String (List JVal)
  | jarr xs => .ok xs
  | jstr s => .ok (s.data.map (fun c => jstr (String.singleton c)))
  | _ => .error "TypeError: value is not iterable"

mutual

/-- Structural equality test on JSON values.  On the primitive values the
server actually stores it coincides with JavaScript's SameValueZero, the
comparison used by `Array.prototype.includes` (server.js line 105). -/
def beq : JVal → JVal → Bool
  | jnull, jnull => true
  | jundef, jundef => true
  | jbool a, jbool b => a == b
  | jnum a, jnum b => a == b
  | jstr a, jstr b => a == b
  | jarr xs, jarr ys => beqList xs ys
  | jobj xs, jobj ys => beqObj xs ys
  | _, _ => false

/-- Element-wise equality of JSON arrays. -/
def beqList : List JVal → List JVal → Bool
  | [], [] => true
  | x :: xs, y :: ys => beq x y && beqList xs ys
  | _, _ => false

/-- Field-wise equality of JSON objects. -/
def beqObj : List (String × JVal) → List (String × JVal) → Bool
  | [], [] => true
  | (k, x) :: xs, (l, y) :: ys => k == l && beq x y && beqObj xs ys
  | _, _ => false

end

mutual

/-- JavaScript `ToString` coercion, used when a value becomes an object
property key (`domainStats[req.domain]`, server.js line 238) or lands in
a template literal (the analytics file name, line 162). -/
def jsToString : JVal → String
  | jnull => "null"
  | jundef => "undefined"
  | jbool true => "true"
  | jbool false => "false"
  | jnum n => toString n
  | jstr s => s
  | jarr xs => String.intercalate "," (jsToStringElems xs)
  | jobj _ => "[object Object]"

/-- Array elements under `ToString`: `null` and `undefined` elements
print as the empty string (`Array.prototype.join` semantics). -/
def jsToStringElems : List JVal → List String
  | [] => []
  | jnull :: xs => "" :: jsToStringElems xs
  | jundef :: xs => "" :: jsToStringElems xs
  | x :: xs => jsToString x :: jsToStringElems xs

end

end JVal

/-- Association-list lookup by key, first match wins (JavaScript `Map.get`
and object property read). -/
def alGet {κ α : Type} [DecidableEq κ] : List (κ × α) → κ → Option α
  | [], _ => none
  | p :: m, k => if p.1 = k then some p.2 else alGet m k

/-- Association-list update: overwrite the first entry with the key,
keeping its position, or append a fresh entry at the end (JavaScript
`Map.set` / object property write / `writeFileSync` to a path). -/
def alSet {κ α : Type} [DecidableEq κ] : List (κ × α) → κ → α → List (κ × α)
  | [], k, v => [(k, v)]
  | p :: m, k, v => if p.1 = k then (k, v) :: m else p :: alSet m k v

/-- Push a batch of values onto the sequence stored under a key, creating
an empty sequence first when the key is absent.  Models the recurring
pattern `if (!map.has(id)) map.set(id, []); map.get(id).push(...)`
(server.js lines 69-72, 137-140, 175-200). -/
def alPush {κ : Type} [DecidableEq κ] (m : List (κ × List JVal)) (k : κ) (xs : List JVal) :
    List (κ × List JVal) :=
  alSet m k (((alGet m k).getD []) ++ xs)

/-- One entry of a per-day log file, as appended by POST /api/logs
(server.js lines 58-64).  `timestamp` and `type'` keep whatever JSON
value survived the `||` defaulting, so they stay `JVal`. -/
structure LogEntry where
  timestamp : JVal
  type' : JVal
  message : JVal
  proxy : JVal
  ip : String


/-- The unused traffic placeholder inside a Stats Record
(server.js line 99). -/
structure Traffic where
  total : Int := 0
  daily : List (String × JVal) := []


/-- One proxy-usage sample appended by POST /api/stats when a proxy is
reported (server.js lines 110-115). -/
structure ProxyUse where
  proxy : JVal
  timestamp : Int
  domain : JVal
  type' : JVal


/-- The per-client Stats Record persisted at stats/<id>/stats.json
(server.js lines 95-100). -/
structure StatsRec where
  totalRequests : Int := 0
  domains : List JVal := []
  proxyUsage : List ProxyUse := []
  traffic : Traffic := {}


/-- The per-client User Record persisted at users/<id>.json; every field
is overwritten on each update (server.js lines 124-128). -/
structure UserData where
  lastActive : Int
  proxyConfig : JVal
  domains : JVal
  ip : String
  userAgent : Option String


/-- One analytics file written by POST /api/analytics (server.js
lines 163-170); a fresh file per call, never merged. -/
structure AnalyticsRec where
  sessionId : JVal
  timestamp : Int
  type' : JVal
  data : JVal
  ip : String
  userAgent : Option String


/-- The snapshot object written by GET /api/export (server.js
lines 331-336).  Note it counts the in-memory users map and copies only
the requests map, not errors or events. -/
structure ExportData where
  timestamp : String
  totalUsers : Nat
  analyticsStoreRequests : List (String × List JVal)
  users : List (String × UserData)


/-- The on-disk state: per-day log files keyed by (extensionId, date),
one stats file per client, one user file per client, one analytics file
per (extensionId, file name), and export snapshots at the data root. -/
structure FS where
  logFiles : List ((String × String) × List LogEntry) := []
  statFiles : List (String × StatsRec) := []
  userFiles : List (String × UserData) := []
  analyticsFiles : List ((String × String) × AnalyticsRec) := []
  exportFiles : List (String × ExportData) := []


/-- The in-memory `analyticsStore` (server.js lines 35-40): four maps
keyed by extensionId.  `requests`, `errors` and `events` accumulate raw
payload objects; `users` holds the latest User Record. -/
structure Store where
  requests : List (String × List JVal) := []
  errors : List (String × List JVal) := []
  events : List (String × List JVal) := []
  users : List (String × UserData) := []


/-- Whole server state: the filesystem plus the in-memory store. -/
structure SrvState where
  fs : FS := {}
  store : Store := {}


/-- A process restart: the data directory persists, the in-memory
`analyticsStore` is rebuilt empty (server.js lines 30-40; the spec notes
the store is "entirely rebuilt as empty on process start"). -/
def processRestart (s : SrvState) : SrvState :=
  { fs := s.fs, store := {} }

/-- An HTTP response: status code plus JSON body. -/
structure Resp where
  status : Nat
  body : JVal


/-- The `{ success: true, received: true }` acknowledgement returned by
/api/logs and /api/analytics. -/
def successReceived : Resp :=
  ⟨200, .jobj [("success", .jbool true), ("received", .jbool true)]⟩

/-- The `{ success: true }` acknowledgement returned by /api/stats. -/
def successOnly : Resp :=
  ⟨200, .jobj [("success", .jbool true)]⟩

/-- The 400 response for a missing extensionId (server.js lines 48, 87,
155). -/
def errMissingId : Resp :=
  ⟨400, .jobj [("error", .jstr "extensionId required")]⟩

/-- A 500 response carrying the caught error's message (server.js
lines 77, 145, 208). -/
def errServer (msg : String) : Resp :=
  ⟨500, .jobj [("error", .jstr msg)]⟩

/-- The 403 response of /api/export on a bad token (server.js line 328). -/
def errForbidden : Resp :=
  ⟨403, .jobj [("error", .jstr "Unauthorized")]⟩

/-- The `path.join` argument check: Node's `path.join` throws a
`TypeError` unless the segment is a string, so a truthy non-string
extensionId aborts each handler before any write (server.js lines 52,
91, 159). -/
def pathSeg : JVal → Except String String
  | .jstr s => .ok s
  | _ => .error "TypeError: Path must be a string"

/-- POST /api/logs (server.js lines 43-79).  `now` is the value of
`Date.now()` during the call, `today` the date part of
`new Date().toISOString()` used as the day-file name (line 55). -/
def handleLogs (s : SrvState) (body : JVal) (now : Int) (ip : String) (today : String) :
    Resp × SrvState :=
  if body.isNullish then (errServer "TypeError: cannot destructure request body", s)
  else
    let extensionId := body.prop "extensionId"
    let message := body.prop "message"
    let ty := body.prop "type"
    let ts := body.prop "timestamp"
    let proxy := body.prop "proxy"
    if !extensionId.truthy then (errMissingId, s)
    else
      match pathSeg extensionId with
      | .error e => (errServer e, s)
      | .ok extId =>
        let logs := (alGet s.fs.logFiles (extId, today)).getD []
        let entry : LogEntry :=
          { timestamp := if ts.truthy then ts else .jnum now
            type' := if ty.truthy then ty else .jstr "info"
            message := message
            proxy := proxy
            ip := ip }
        let fs' := { s.fs with logFiles := alSet s.fs.logFiles (extId, today) (logs ++ [entry]) }
        let store' := { s.store with events := alPush s.store.events extId [body] }
        (successReceived, { fs := fs', store := store' })

/-- The stats-record update of POST /api/stats (server.js lines 102-116):
increment totalRequests unconditionally, append the domain unless a
linear scan (`includes`) already finds it, and append a proxy-usage
sample when a proxy is reported. -/
def statsMerge (stats0 : StatsRec) (ty domain proxy : JVal) (now : Int) : StatsRec :=
  let stats1 := { stats0 with totalRequests := stats0.totalRequests + 1 }
  let stats2 :=
    if domain.truthy && !(stats1.domains.any (fun d => d.beq domain)) then
      { stats1 with domains := stats1.domains ++ [domain] }
    else stats1
  if proxy.truthy then
    { stats2 with proxyUsage := stats2.proxyUsage ++
        [{ proxy := proxy, timestamp := now, domain := domain, type' := ty }] }
  else stats2

/-- POST /api/stats (server.js lines 82-147).  `ua` is the User-Agent
header (absent headers give `undefined`, modelled as `none`). -/
def handleStats (s : SrvState) (body : JVal) (now : Int) (ip : String) (ua : Option String) :
    Resp × SrvState :=
  if body.isNullish then (errServer "TypeError: cannot destructure request body", s)
  else
    let extensionId := body.prop "extensionId"
    let ty := body.prop "type"
    let domain := body.prop "domain"
    let proxy := body.prop "proxy"
    let domains := body.prop "domains"
    let proxyConfig := body.prop "proxyConfig"
    if !extensionId.truthy then (errMissingId, s)
    else
      match pathSeg extensionId with
      | .error e => (errServer e, s)
      | .ok extId =>
        let stats0 := (alGet s.fs.statFiles extId).getD {}
        let stats3 := statsMerge stats0 ty domain proxy now
        let fsStore1 :=
          if proxyConfig.truthy then
            let userData : UserData :=
              { lastActive := now
                proxyConfig := proxyConfig
                domains := if domains.truthy then domains else .jarr []
                ip := ip
                userAgent := ua }
            ({ s.fs with userFiles := alSet s.fs.userFiles extId userData },
             { s.store with users := alSet s.store.users extId userData })
          else (s.fs, s.store)
        let fs2 := { fsStore1.1 with statFiles := alSet fsStore1.1.statFiles extId stats3 }
        let store2 := { fsStore1.2 with requests := alPush fsStore1.2.requests extId [body] }
        (successOnly, { fs := fs2, store := store2 })

/-- The `case 'batch'` branch of POST /api/analytics (server.js
lines 188-202), entered after the analytics file was already written.
Reading `data.requests` throws when `data` is nullish, and the spread in
`push(...data.requests)` throws on a truthy non-iterable; each throw is
caught by the handler's `catch` and becomes a 500, keeping the state
mutations made so far. -/
def batchStep (s1 : SrvState) (extId : String) (data : JVal) : Resp × SrvState :=
  match data.propE "requests" with
  | .error e => (errServer e, s1)
  | .ok dreqs =>
    let errStep : SrvState → Resp × SrvState := fun s2 =>
      match data.propE "errors" with
      | .error e => (errServer e, s2)
      | .ok derrs =>
        if derrs.truthy then
          match derrs.spreadElems with
          | .error e => (errServer e, s2)
          | .ok es =>
            (successReceived,
             { s2 with store := { s2.store with errors := alPush s2.store.errors extId es } })
        else (successReceived, s2)
    if dreqs.truthy then
      match dreqs.spreadElems with
      | .error e => (errServer e, s1)
      | .ok rs =>
        errStep { s1 with store := { s1.store with requests := alPush s1.store.requests extId rs } }
    else errStep s1

/-- POST /api/analytics (server.js lines 150-210): write one analytics
file, then route by the declared `type` (strict string comparison, as in
a JavaScript `switch`); unknown types fall through with no in-memory
change. -/
def handleAnalytics (s : SrvState) (body : JVal) (now : Int) (ip : String) (ua : Option String) :
    Resp × SrvState :=
  if body.isNullish then (errServer "TypeError: cannot destructure request body", s)
  else
    let ty := body.prop "type"
    let data := body.prop "data"
    let extensionId := body.prop "extensionId"
    let sessionId := body.prop "sessionId"
    if !extensionId.truthy then (errMissingId, s)
    else
      match pathSeg extensionId with
      | .error e => (errServer e, s)
      | .ok extId =>
        let fname := ty.jsToString ++ "_" ++ toString now ++ ".json"
        let arec : AnalyticsRec :=
          { sessionId := sessionId, timestamp := now, type' := ty, data := data
            ip := ip, userAgent := ua }
        let s1 : SrvState :=
          { s with fs := { s.fs with analyticsFiles := alSet s.fs.analyticsFiles (extId, fname) arec } }
        match ty with
        | .jstr tstr =>
          if tstr = "request" then
            (successReceived,
             { s1 with store := { s1.store with requests := alPush s1.store.requests extId [data] } })
          else if tstr = "error" then
            (successReceived,
             { s1 with store := { s1.store with errors := alPush s1.store.errors extId [data] } })
          else if tstr = "batch" then batchStep s1 extId data
          else (successReceived, s1)
        | _ => (successReceived, s1)

/-- The dashboard's totalRequests: `Array.from(requests.values())
.reduce((acc, arr) => acc + arr.length, 0)` (server.js lines 216-217). -/
def dashTotalRequests (s : SrvState) : Nat :=
  s.store.requests.foldl (fun acc p => acc + p.2.length) 0

/-- The dashboard's totalErrors, the same reduction over the errors map
(server.js lines 248-249). -/
def dashTotalErrors (s : SrvState) : Nat :=
  s.store.errors.foldl (fun acc p => acc + p.2.length) 0

/-- The dashboard's totalUsers: the length of the users directory
listing, i.e. the number of user files on disk (server.js line 215). -/
def dashTotalUsers (s : SrvState) : Nat :=
  s.fs.userFiles.length

/-- The dashboard's activeUsers: in-memory users whose lastActive is
within the last 24 hours (server.js lines 220-222). -/
def dashActiveUsers (s : SrvState) (now : Int) : Nat :=
  (s.store.users.filter (fun p => now - p.2.lastActive < 24 * 60 * 60 * 1000)).length

/-- A JavaScript `obj[k] = (obj[k] || 0) + 1` tally step on an
insertion-ordered object (server.js lines 229 and 238). -/
def bump (m : List (String × Nat)) (k : String) : List (String × Nat) :=
  alSet m k ((alGet m k).getD 0 + 1)

/-- The dashboard's proxyUsage tally: one count per in-memory user whose
`proxyConfig?.host` is truthy, keyed by the host coerced to a property
key (server.js lines 225-231).  Optional chaining makes a nullish
proxyConfig yield `undefined` without throwing. -/
def proxyUsageTally (users : List (String × UserData)) : List (String × Nat) :=
  users.foldl
    (fun acc p =>
      let host := p.2.proxyConfig.prop "host"
      if host.truthy then bump acc host.jsToString else acc) []

/-- The dashboard's domain tally: one count per stored request payload
whose `domain` field is truthy, keyed by the domain coerced to a
property key (server.js lines 234-241).  Reading `.domain` off a nullish
stored payload throws, which the handler's `catch` turns into a 500. -/
def domainStatsOf (requests : List (String × List JVal)) : Except String (List (String × Nat)) :=
  requests.foldlM
    (fun acc p =>
      p.2.foldlM
        (fun acc2 r => do
          let d ← r.propE "domain"
          pure (if d.truthy then bump acc2 d.jsToString else acc2))
        acc)
    []

/-- Sort tally entries by descending count (the stable comparator
`(a, b) => b.count - a.count`) and keep the first ten (server.js
lines 252-259). -/
def topTen (m : List (String × Nat)) : List (String × Nat) :=
  (m.mergeSort (fun a b => b.2 ≤ a.2)).take 10

/-- The dashboard response fields the verification tracks.  The real
response also carries `uptime` (wall-clock process uptime) and
`recentEvents` (a sort whose comparator does JavaScript number
arithmetic on arbitrary payload fields); neither is referenced by any
claim, so they stay outside the model. -/
structure DashData where
  totalUsers : Nat
  activeUsers : Nat
  totalRequests : Nat
  totalErrors : Nat
  proxyUsage : List (String × Nat)
  topDomains : List (String × Nat)

/-- GET /api/dashboard (server.js lines 213-269), as far as the modelled
fields go; an exception anywhere in the handler produces a 500. -/
def handleDashboard (s : SrvState) (now : Int) : Except String DashData := do
  let domainStats ← domainStatsOf s.store.requests
  pure
    { totalUsers := dashTotalUsers s
      activeUsers := dashActiveUsers s now
      totalRequests := dashTotalRequests s
      totalErrors := dashTotalErrors s
      proxyUsage := topTen (proxyUsageTally s.store.users)
      topDomains := topTen domainStats }

/-- The export snapshot object (server.js lines 331-336): the in-memory
users-map size, the requests map, and the users map.  Errors and events
are not exported. -/
def exportSnapshot (s : SrvState) (isoNow : String) : ExportData :=
  { timestamp := isoNow
    totalUsers := s.store.users.length
    analyticsStoreRequests := s.store.requests
    users := s.store.users }

/-- GET /api/export (server.js lines 323-346): a fixed bearer-token
check (strict string comparison against `Bearer admin123`; a missing
header is `undefined` and fails it), then a snapshot write and a file
download.  The 200 body here stands for the download of the named
file. -/
def handleExport (s : SrvState) (auth : Option String) (now : Int) (isoNow : String) :
    Resp × SrvState :=
  if auth ≠ some "Bearer admin123" then (errForbidden, s)
  else
    let ed := exportSnapshot s isoNow
    let fname := "export_" ++ toString now ++ ".json"
    let fs' := { s.fs with exportFiles := alSet s.fs.exportFiles fname ed }
    (⟨200, .jobj [("download", .jstr fname)]⟩, { s with fs := fs' })

/-! Scenario states used by the concrete parts of the claims. -/

/-- A stats payload reporting one domain for one client. -/
def statsBody (e d : String) : JVal :=
  .jobj [("extensionId", .jstr e), ("domain", .jstr d)]

/-- One POST /api/stats call, keeping only the resulting state. -/
def postStats (e d : String) (s : SrvState) : SrvState :=
  (handleStats s (statsBody e d) 0 "ip" none).2

/-- Five ingestion calls split 3/2 over two clients (claim C1's concrete
scenario). -/
def scenarioC1 : SrvState :=
  postStats "ext2" "b.com" (postStats "ext2" "b.com"
    (postStats "ext1" "a.com" (postStats "ext1" "a.com" (postStats "ext1" "a.com" {}))))

/-- Three stats posts of example.com for ext1 (claim C2's concrete
scenario). -/
def scenarioC2 : SrvState :=
  postStats "ext1" "example.com" (postStats "ext1" "example.com"
    (postStats "ext1" "example.com" {}))

/-- A stats payload carrying a proxyConfig, so a user file is written. -/
def statsCfgBody : JVal :=
  .jobj [("extensionId", .jstr "ext1"),
         ("proxyConfig", .jobj [("host", .jstr "proxy.example")])]

/-- A stats call that persists a user file, followed by a process
restart that clears the in-memory store (claim C10's scenario). -/
def scenarioC10 : SrvState :=
  processRestart (handleStats {} statsCfgBody 0 "1.2.3.4" none).2

/-! Helper lemmas about the association-list model and the `Except`
monad used for thrown exceptions. -/

theorem exceptErrorBind {ε α β : Type} (e : ε) (f : α → Except ε β) :
    (Except.error e >>= f) = Except.error e := rfl

theorem exceptOkBind {ε α β : Type} (a : α) (f : α → Except ε β) :
    (Except.ok a >>= f) = f a := rfl

theorem exceptPureBind {ε α β : Type} (a : α) (f : α → Except ε β) :
    ((pure a : Except ε α) >>= f) = f a := rfl

theorem alGet_alSet_self {κ α : Type} [DecidableEq κ] (m : List (κ × α)) (k : κ) (v : α) :
    alGet (alSet m k v) k = some v := by
  induction m with
  | nil => simp [alGet, alSet]
  | cons p m ih =>
    by_cases h : p.1 = k
    · simp [alGet, alSet, h]
    · simp [alGet, alSet, h, ih]

theorem alGet_alSet_ne {κ α : Type} [DecidableEq κ] (m : List (κ × α)) (k k' : κ) (v : α)
    (h : k ≠ k') : alGet (alSet m k v) k' = alGet m k' := by
  induction m with
  | nil => simp [alGet, alSet, h]
  | cons p m ih =>
    by_cases hp : p.1 = k
    · simp [alGet, alSet, hp, h]
    · simp only [alSet, hp, if_false]
      by_cases hp' : p.1 = k'
      · simp [alGet, hp']
      · simp [alGet, hp', ih]

theorem alGet_alPush_self (m : List (String × List JVal)) (k : String) (xs : List JVal) :
    alGet (alPush m k xs) k = some (((alGet m k).getD []) ++ xs) :=
  alGet_alSet_self m k _

theorem alGet_alPush_ne (m : List (String × List JVal)) (k k' : String) (xs : List JVal)
    (h : k ≠ k') : alGet (alPush m k xs) k' = alGet m k' :=
  alGet_alSet_ne m k k' _ h

/-- The dashboard's `reduce((acc, arr) => acc + arr.length, 0)` computes
the sum of the per-client sequence lengths. -/
theorem foldl_add_length (m : List (String × List JVal)) (acc : Nat) :
    m.foldl (fun acc p => acc + p.2.length) acc
      = acc + (m.map (fun p => p.2.length)).sum := by
  induction m generalizing acc with
  | nil => simp
  | cons p m ih => simp [List.foldl_cons, ih, Nat.add_assoc]

/-- Pushing `xs` onto one client's sequence grows the total length by
`xs.length`, whether or not the client already had a sequence. -/
theorem sum_lengths_alPush (m : List (String × List JVal)) (k : String) (xs : List JVal) :
    ((alPush m k xs).map (fun p => p.2.length)).sum
      = (m.map (fun p => p.2.length)).sum + xs.length := by
  induction m with
  | nil => simp [alPush, alGet, alSet]
  | cons p m ih =>
    by_cases h : p.1 = k
    · simp [alPush, alGet, alSet, h, Nat.add_assoc, Nat.add_comm, Nat.add_left_comm]
    · simp only [alPush, alGet, alSet, h, if_false] at *
      simp [ih, Nat.add_assoc]

/-- The count stored in a tally, zero when the key is absent. -/
def tallyGet (m : List (String × Nat)) (k : String) : Nat :=
  (alGet m k).getD 0

theorem tallyGet_bump (m : List (String × Nat)) (k' k : String) :
    tallyGet (bump m k') k = tallyGet m k + (if k' = k then 1 else 0) := by
  by_cases h : k' = k
  · subst h
    simp [tallyGet, bump, alGet_alSet_self]
  · simp [tallyGet, bump, alGet_alSet_ne _ _ _ _ h, h]

/-- Whether one stored request payload counts toward the tally key `k`:
its `domain` field is truthy and coerces to `k` as a property key. -/
def domainKeyP (k : String) (r : JVal) : Bool :=
  (r.prop "domain").truthy && ((r.prop "domain").jsToString == k)

/-- Recomputed domain tally for one key, counting occurrences across
every payload of every client's stored request sequence. -/
def domainCount (requests : List (String × List JVal)) (k : String) : Nat :=
  ((requests.map Prod.snd).flatten).countP (domainKeyP k)

/-- One client's inner pass of the dashboard domain tally adds exactly
the payload occurrences of the key. -/
theorem domainStats_inner (k : String) (rs : List JVal) :
    ∀ (acc m : List (String × Nat)),
      (rs.foldlM
        (fun acc2 r => do
          let d ← r.propE "domain"
          pure (if d.truthy then bump acc2 d.jsToString else acc2))
        acc) = Except.ok m →
      tallyGet m k = tallyGet acc k + rs.countP (domainKeyP k) := by
  induction rs with
  | nil =>
    intro acc m h
    simp only [List.foldlM_nil] at h
    cases h
    simp
  | cons r rs ih =>
    intro acc m h
    rw [List.foldlM_cons] at h
    cases hd : r.propE "domain" with
    | error e =>
      rw [hd, exceptErrorBind, exceptErrorBind] at h
      exact Except.noConfusion h
    | ok d =>
      have hd' : d = r.prop "domain" := by
        unfold JVal.propE at hd
        split at hd
        · cases hd
        · cases hd; rfl
      subst hd'
      rw [hd, exceptOkBind, exceptPureBind] at h
      have hih := ih _ _ h
      rw [List.countP_cons, hih]
      by_cases ht : (r.prop "domain").truthy
      · rw [if_pos ht]
        rw [tallyGet_bump]
        by_cases hk : (r.prop "domain").jsToString = k
        · simp only [domainKeyP, ht, hk, Bool.true_and, beq_self_eq_true, if_pos]
          omega
        · have : domainKeyP k r = false := by
            simp [domainKeyP, ht, hk]
          simp only [this, hk, if_false, Bool.false_eq_true]
          omega
      · rw [if_neg ht]
        have : domainKeyP k r = false := by
          simp only [domainKeyP, Bool.and_eq_false_iff]
          left
          simpa using ht
        simp [this]

/-- The dashboard's domain tally, when it does not throw, reports for
every key exactly the number of stored request payloads whose truthy
`domain` field coerces to that key. -/
theorem domainStats_ok_tally (requests : List (String × List JVal))
    (m : List (String × Nat)) (k : String)
    (h : domainStatsOf requests = .ok m) : tallyGet m k = domainCount requests k := by
  have H : ∀ (reqs : List (String × List JVal)) (acc m' : List (String × Nat)),
      (reqs.foldlM
        (fun acc p =>
          p.2.foldlM
            (fun acc2 r => do
              let d ← r.propE "domain"
              pure (if d.truthy then bump acc2 d.jsToString else acc2))
            acc)
        acc) = Except.ok m' →
      tallyGet m' k = tallyGet acc k + domainCount reqs k := by
    intro reqs
    induction reqs with
    | nil =>
      intro acc m' h'
      simp only [List.foldlM_nil] at h'
      cases h'
      simp [domainCount]
    | cons p reqs ih =>
      intro acc m' h'
      rw [List.foldlM_cons] at h'
      cases hstep : (p.2.foldlM
          (fun acc2 r => do
            let d ← r.propE "domain"
            pure (if d.truthy then bump acc2 d.jsToString else acc2))
          acc) with
      | error e =>
        rw [hstep, exceptErrorBind] at h'
        exact Except.noConfusion h'
      | ok acc' =>
        rw [hstep, exceptOkBind] at h'
        have h1 := domainStats_inner k p.2 acc acc' hstep
        have h2 := ih acc' m' h'
        rw [h2, h1]
        simp only [domainCount, List.map_cons, List.flatten_cons, List.countP_append]
        omega
  have := H requests [] m (by simpa [domainStatsOf] using h)
  simpa [tallyGet, alGet, domainCount] using this

/-- The comparator `(a, b) => b.count - a.count` is transitive and total
once read as the boolean relation `b.2 ≤ a.2`. -/
theorem topTen_sorted (m : List (String × Nat)) :
    (topTen m).Pairwise (fun a b => b.2 ≤ a.2) := by
  have hs : List.Pairwise (fun a b : String × Nat => decide (b.2 ≤ a.2) = true)
      (m.mergeSort (fun a b => decide (b.2 ≤ a.2))) :=
    List.sorted_mergeSort
      (by intro a b c h1 h2; simp only [decide_eq_true_eq] at *; omega)
      (by intro a b; simp only [Bool.or_eq_true, decide_eq_true_eq]; omega) m
  have ht := List.Pairwise.sublist (List.take_sublist 10 _) hs
  exact ht.imp (by intro a b h; simpa using h)

theorem topTen_length_le (m : List (String × Nat)) : (topTen m).length ≤ 10 := by
  simp only [topTen, List.length_take]
  omega

/-- Every tally entry left out of the top ten is dominated by every
entry kept: `take 10` of a descending-sorted list keeps maxima. -/
theorem topTen_dominated (m : List (String × Nat)) :
    ∀ x ∈ m, x ∉ topTen m → ∀ y ∈ topTen m, x.2 ≤ y.2 := by
  intro x hxm hxn y hy
  have hs : List.Pairwise (fun a b : String × Nat => decide (b.2 ≤ a.2) = true)
      (m.mergeSort (fun a b => decide (b.2 ≤ a.2))) :=
    List.sorted_mergeSort
      (by intro a b c h1 h2; simp only [decide_eq_true_eq] at *; omega)
      (by intro a b; simp only [Bool.or_eq_true, decide_eq_true_eq]; omega) m
  have hx : x ∈ m.mergeSort (fun a b => decide (b.2 ≤ a.2)) := List.mem_mergeSort.mpr hxm
  have hsplit := hs
  rw [← List.take_append_drop 10 (m.mergeSort (fun a b => decide (b.2 ≤ a.2)))] at hsplit
  obtain ⟨-, -, hcross⟩ := List.pairwise_append.mp hsplit
  have hx2 : x ∈ (m.mergeSort (fun a b => decide (b.2 ≤ a.2))).take 10 ++
      (m.mergeSort (fun a b => decide (b.2 ≤ a.2))).drop 10 := by
    rw [List.take_append_drop]
    exact hx
  have hxdrop : x ∈ (m.mergeSort (fun a b => decide (b.2 ≤ a.2))).drop 10 := by
    rcases List.mem_append.mp hx2 with h | h
    · exact absurd h hxn
    · exact h
  have := hcross y hy x hxdrop
  simpa using this

/-- A body whose field reads back as a string must be a JSON object, so
destructuring it does not throw. -/
theorem isNullish_false_of_prop {body : JVal} {k e : String}
    (h : body.prop k = .jstr e) : body.isNullish = false := by
  cases body <;> first | rfl | exact absurd h (by simp [JVal.prop])

/-- String truthiness, stated for rewriting. -/
theorem truthy_jstr (s : String) : (JVal.jstr s).truthy = (s != "") := rfl

/-- Arrays are always truthy. -/
theorem truthy_jarr (xs : List JVal) : (JVal.jarr xs).truthy = true := rfl

/-- Spreading an array yields its elements. -/
theorem spreadElems_jarr (xs : List JVal) : (JVal.jarr xs).spreadElems = .ok xs := rfl

/-- Objects are not nullish. -/
theorem isNullish_jobj (fields : List (String × JVal)) :
    (JVal.jobj fields).isNullish = false := rfl

/-- The log entry POST /api/logs resolves from a request body: `||`
defaulting replaces a falsy timestamp with the receipt time and a falsy
type with "info" (server.js lines 58-64). -/
def logEntryOf (body : JVal) (now : Int) (ip : String) : LogEntry :=
  { timestamp := if (body.prop "timestamp").truthy then body.prop "timestamp" else .jnum now
    type' := if (body.prop "type").truthy then body.prop "type" else .jstr "info"
    message := body.prop "message"
    proxy := body.prop "proxy"
    ip := ip }

/-- Characterization of POST /api/logs on a valid (truthy string)
extensionId: the resolved entry is appended to the day file and the raw
body is mirrored into the in-memory events map. -/
theorem handleLogs_spec (s : SrvState) (body : JVal) (now : Int) (ip today e : String)
    (hE : body.prop "extensionId" = .jstr e) (he : e ≠ "") :
    handleLogs s body now ip today =
      (successReceived,
       ⟨{ s.fs with logFiles :=
            (alSet s.fs.logFiles (e, today)
              (((alGet s.fs.logFiles (e, today)).getD []) ++ [logEntryOf body now ip])) },
        { s.store with events := alPush s.store.events e [body] }⟩) := by
  have hnn := isNullish_false_of_prop hE
  simp [handleLogs, hnn, hE, he, pathSeg, truthy_jstr, logEntryOf]

/-- The stats file written by POST /api/stats on a valid extensionId is
the merged record, whether or not a proxyConfig rode along. -/
theorem handleStats_statFiles (s : SrvState) (body : JVal) (now : Int) (ip : String)
    (ua : Option String) (e : String)
    (hE : body.prop "extensionId" = .jstr e) (he : e ≠ "") :
    (handleStats s body now ip ua).2.fs.statFiles =
      alSet s.fs.statFiles e
        (statsMerge ((alGet s.fs.statFiles e).getD {}) (body.prop "type")
          (body.prop "domain") (body.prop "proxy") now) := by
  have hnn := isNullish_false_of_prop hE
  by_cases hpc : (body.prop "proxyConfig").truthy <;>
    simp [handleStats, hnn, hE, he, pathSeg, hpc, truthy_jstr]

/-- One stats merge leaves exactly one copy of the submitted domain in
the domains list, provided the list held at most one copy before. -/
theorem countP_statsMerge_domains (stats0 : StatsRec) (ty proxy : JVal) (now : Int)
    (d : String) (hd : d ≠ "")
    (hc : stats0.domains.countP (fun x => x.beq (.jstr d)) ≤ 1) :
    ((statsMerge stats0 ty (.jstr d) proxy now).domains.countP
      (fun x => x.beq (.jstr d))) = 1 := by
  have hdom : (statsMerge stats0 ty (.jstr d) proxy now).domains =
      (if (JVal.jstr d).truthy && !(stats0.domains.any (fun x => x.beq (.jstr d)))
       then stats0.domains ++ [.jstr d] else stats0.domains) := by
    unfold statsMerge
    by_cases hp : proxy.truthy <;> by_cases hq : ((JVal.jstr d).truthy &&
        !(stats0.domains.any (fun x => x.beq (.jstr d)))) <;> simp [hp, hq]
  rw [hdom]
  have htr : (JVal.jstr d).truthy = true := by simp [JVal.truthy, hd]
  by_cases hany : stats0.domains.any (fun x => x.beq (.jstr d))
  · have hcond : ((JVal.jstr d).truthy &&
        !(stats0.domains.any (fun x => x.beq (.jstr d)))) = false := by
      rw [htr, hany]
      rfl
    rw [hcond]
    simp only [Bool.false_eq_true, if_false]
    have hpos : 0 < stats0.domains.countP (fun x => x.beq (.jstr d)) := by
      rw [List.countP_pos_iff]
      obtain ⟨x, hx, hpx⟩ := List.any_eq_true.mp hany
      exact ⟨x, hx, hpx⟩
    omega
  · have hcond : ((JVal.jstr d).truthy &&
        !(stats0.domains.any (fun x => x.beq (.jstr d)))) = true := by
      rw [htr, eq_false_of_ne_true hany]
      rfl
    rw [hcond]
    simp only [if_true]
    have h0 : stats0.domains.countP (fun x => x.beq (.jstr d)) = 0 := by
      by_contra h
      have hpos := Nat.pos_of_ne_zero h
      rw [List.countP_pos_iff] at hpos
      obtain ⟨x, hx, hpx⟩ := hpos
      exact hany (List.any_eq_true.mpr ⟨x, hx, hpx⟩)
    rw [List.countP_append, h0]
    simp [List.countP_cons, JVal.beq]

/-! The claims. -/

/-- Claim C1: for every aggregator state, the dashboard's totalRequests
equals the sum of the lengths of all per-client request sequences in the
in-memory requests map; and after 5 ingestion calls split 3/2 over two
clients, GET /api/dashboard reports totalRequests = 5. -/
theorem claim_C1 :
    (∀ s : SrvState,
      dashTotalRequests s = (s.store.requests.map (fun p => p.2.length)).sum) ∧
    (handleDashboard scenarioC1 0).map (fun d => d.totalRequests) = .ok 5 := by
  constructor
  · intro s
    simpa using foldl_add_length s.store.requests 0
  · have h : domainStatsOf scenarioC1.store.requests = .ok [("a.com", 3), ("b.com", 2)] := rfl
    simp only [handleDashboard, h, exceptOkBind, Except.map]
    rfl

/-- Claim C4: a POST to /api/logs, /api/stats or /api/analytics whose
body lacks a (truthy) extensionId gets a 400 response and leaves the
filesystem and the in-memory store untouched. -/
theorem claim_C4 (s : SrvState) (body : JVal) (now : Int) (ip : String) (ua : Option String)
    (today : String)
    (hnn : body.isNullish = false)
    (hid : (body.prop "extensionId").truthy = false) :
    handleLogs s body now ip today = (errMissingId, s) ∧
    handleStats s body now ip ua = (errMissingId, s) ∧
    handleAnalytics s body now ip ua = (errMissingId, s) := by
  refine ⟨?_, ?_, ?_⟩ <;> simp [handleLogs, handleStats, handleAnalytics, hnn, hid]

/-- Witness for C4 at the empty body. -/
theorem claim_C4_witness :
    handleLogs {} (.jobj []) 0 "ip" "2024-01-01" = (errMissingId, {}) ∧
    handleStats {} (.jobj []) 0 "ip" none = (errMissingId, {}) ∧
    handleAnalytics {} (.jobj []) 0 "ip" none = (errMissingId, {}) :=
  claim_C4 {} (.jobj []) 0 "ip" none "2024-01-01" rfl rfl

/-- Claim C5: two successive stats posts reporting the same domain for
the same client leave exactly one occurrence of that domain in the
persisted Stats Record's domains list (starting from any state whose
persisted list holds at most one occurrence). -/
theorem claim_C5 (s : SrvState) (b1 b2 : JVal) (n1 n2 : Int) (ip1 ip2 : String)
    (ua1 ua2 : Option String) (e d : String)
    (hE1 : b1.prop "extensionId" = .jstr e) (hE2 : b2.prop "extensionId" = .jstr e)
    (he : e ≠ "")
    (hD1 : b1.prop "domain" = .jstr d) (hD2 : b2.prop "domain" = .jstr d) (hd : d ≠ "")
    (hc : (((alGet s.fs.statFiles e).getD {}).domains).countP
        (fun x => x.beq (.jstr d)) ≤ 1) :
    ((((alGet (handleStats (handleStats s b1 n1 ip1 ua1).2 b2 n2 ip2 ua2).2.fs.statFiles
        e).getD {}).domains).countP (fun x => x.beq (.jstr d))) = 1 := by
  have h1 := handleStats_statFiles s b1 n1 ip1 ua1 e hE1 he
  rw [hD1] at h1
  have h2 := handleStats_statFiles ((handleStats s b1 n1 ip1 ua1).2) b2 n2 ip2 ua2 e hE2 he
  rw [hD2, h1] at h2
  rw [h2, alGet_alSet_self, alGet_alSet_self]
  simp only [Option.getD_some]
  exact countP_statsMerge_domains _ _ _ _ d hd
    (le_of_eq (countP_statsMerge_domains _ _ _ _ d hd hc))

/-- Witness for C5: the same domain posted twice from the empty state. -/
theorem claim_C5_witness :
    ((((alGet (handleStats (handleStats {} (statsBody "ext1" "example.com") 0 "ip" none).2
        (statsBody "ext1" "example.com") 0 "ip" none).2.fs.statFiles
        "ext1").getD {}).domains).countP (fun x => x.beq (.jstr "example.com"))) = 1 :=
  claim_C5 {} (statsBody "ext1" "example.com") (statsBody "ext1" "example.com")
    0 0 "ip" "ip" none none "ext1" "example.com" rfl rfl (by decide) rfl rfl (by decide)
    (by decide)

/-- Claim C6: a log post that omits timestamp and type gets type "info"
and the receipt time (which lies between call start and completion);
supplied truthy values are used as given. -/
theorem claim_C6 :
    (∀ (s : SrvState) (body : JVal) (now tStart tEnd : Int) (ip today e : String),
      body.prop "extensionId" = .jstr e → e ≠ "" →
      body.prop "timestamp" = .jundef → body.prop "type" = .jundef →
      tStart ≤ now → now ≤ tEnd →
      alGet (handleLogs s body now ip today).2.fs.logFiles (e, today)
        = some (((alGet s.fs.logFiles (e, today)).getD []) ++
            [⟨.jnum now, .jstr "info", body.prop "message", body.prop "proxy", ip⟩]) ∧
      tStart ≤ now ∧ now ≤ tEnd) ∧
    (∀ (s : SrvState) (body : JVal) (now : Int) (ip today e : String),
      body.prop "extensionId" = .jstr e → e ≠ "" →
      (body.prop "timestamp").truthy = true → (body.prop "type").truthy = true →
      alGet (handleLogs s body now ip today).2.fs.logFiles (e, today)
        = some (((alGet s.fs.logFiles (e, today)).getD []) ++
            [⟨body.prop "timestamp", body.prop "type", body.prop "message",
              body.prop "proxy", ip⟩])) := by
  constructor
  · intro s body now tStart tEnd ip today e hE he hTs hTy h1 h2
    refine ⟨?_, h1, h2⟩
    rw [handleLogs_spec s body now ip today e hE he]
    simp [alGet_alSet_self, logEntryOf, hTs, hTy, JVal.truthy]
  · intro s body now ip today e hE he hTs hTy
    rw [handleLogs_spec s body now ip today e hE he]
    simp [alGet_alSet_self, logEntryOf, hTs, hTy]

/-- Witness for C6: a body with no timestamp/type gets defaults; a body
carrying both keeps them. -/
theorem claim_C6_witness :
    (alGet (handleLogs {} (.jobj [("extensionId", .jstr "ext1"), ("message", .jstr "hello")])
          5 "ip" "2024-01-01").2.fs.logFiles ("ext1", "2024-01-01")
        = some [⟨.jnum 5, .jstr "info", .jstr "hello", .jundef, "ip"⟩] ∧
      (3 : Int) ≤ 5 ∧ (5 : Int) ≤ 9) ∧
    (alGet (handleLogs {} (.jobj [("extensionId", .jstr "ext1"), ("timestamp", .jnum 7),
          ("type", .jstr "warn")]) 5 "ip" "2024-01-01").2.fs.logFiles ("ext1", "2024-01-01")
        = some [⟨.jnum 7, .jstr "warn", .jundef, .jundef, "ip"⟩]) :=
  ⟨claim_C6.1 {} (.jobj [("extensionId", .jstr "ext1"), ("message", .jstr "hello")])
      5 3 9 "ip" "2024-01-01" "ext1" rfl (by decide) rfl rfl (by decide) (by decide),
   claim_C6.2 {} (.jobj [("extensionId", .jstr "ext1"), ("timestamp", .jnum 7),
      ("type", .jstr "warn")]) 5 "ip" "2024-01-01" "ext1" rfl (by decide) rfl rfl⟩

/-- Claim C8: an export request whose Authorization header is anything
but the fixed bearer token gets a 403 and the state — in particular the
set of export files — is unchanged. -/
theorem claim_C8 (s : SrvState) (auth : Option String) (now : Int) (isoNow : String)
    (h : auth ≠ some "Bearer admin123") :
    handleExport s auth now isoNow = (errForbidden, s) := by
  simp [handleExport, h]

/-- Witness for C8 at a wrong token. -/
theorem claim_C8_witness :
    handleExport {} (some "Bearer wrong") 0 "t" = (errForbidden, {}) :=
  claim_C8 {} (some "Bearer wrong") 0 "t" (by decide)

/-- Claim C9: `||` defaulting in POST /api/logs keys on truthiness, not
presence: any falsy timestamp (such as an explicit 0) and any falsy type
(such as "") are replaced by the receipt time and "info". -/
theorem claim_C9 (s : SrvState) (body : JVal) (now : Int) (ip today e : String)
    (hE : body.prop "extensionId" = .jstr e) (he : e ≠ "")
    (hTs : (body.prop "timestamp").truthy = false)
    (hTy : (body.prop "type").truthy = false) :
    alGet (handleLogs s body now ip today).2.fs.logFiles (e, today)
      = some (((alGet s.fs.logFiles (e, today)).getD []) ++
          [⟨.jnum now, .jstr "info", body.prop "message", body.prop "proxy", ip⟩]) := by
  rw [handleLogs_spec s body now ip today e hE he]
  simp [alGet_alSet_self, logEntryOf, hTs, hTy]

/-- Witness for C9: timestamp 0 and type "" are supplied yet replaced. -/
theorem claim_C9_witness :
    alGet (handleLogs {} (.jobj [("extensionId", .jstr "ext1"), ("timestamp", .jnum 0),
        ("type", .jstr "")]) 5 "ip" "2024-01-01").2.fs.logFiles ("ext1", "2024-01-01")
      = some [⟨.jnum 5, .jstr "info", .jundef, .jundef, "ip"⟩] :=
  claim_C9 {} (.jobj [("extensionId", .jstr "ext1"), ("timestamp", .jnum 0),
    ("type", .jstr "")]) 5 "ip" "2024-01-01" "ext1" rfl (by decide) rfl rfl

/-- Claim C10: the export snapshot's totalUsers counts the in-memory
users map while the dashboard's totalUsers counts files in the users
directory; after a user file is persisted and the process restarts,
export reports 0 while the dashboard reports 1. -/
theorem claim_C10 :
    (∀ (s : SrvState) (isoNow : String),
      (exportSnapshot s isoNow).totalUsers = s.store.users.length) ∧
    (∀ s : SrvState, dashTotalUsers s = s.fs.userFiles.length) ∧
    (exportSnapshot scenarioC10 "t").totalUsers = 0 ∧
    dashTotalUsers scenarioC10 = 1 ∧
    (exportSnapshot scenarioC10 "t").totalUsers ≠ dashTotalUsers scenarioC10 :=
  ⟨fun _ _ => rfl, fun _ => rfl, rfl, rfl, by decide⟩

/-- The concrete batch payload of claim C3: two requests and one error. -/
def batchBody : JVal :=
  .jobj [("extensionId", .jstr "ext1"), ("type", .jstr "batch"),
    ("data", .jobj [("requests", .jarr [.jobj [("a", .jnum 1)], .jobj [("b", .jnum 2)]]),
                    ("errors", .jarr [.jobj [("e", .jnum 1)]])])]

/-- The batch payload that refutes claim C3 as stated: `data.errors`
is a genuine array, but `data.requests` is truthy and not iterable, so
the spread at server.js line 194 throws before the errors branch runs. -/
def badBatchBody : JVal :=
  .jobj [("extensionId", .jstr "ext1"), ("type", .jstr "batch"),
    ("data", .jobj [("requests", .jbool true), ("errors", .jarr [.jobj [("e", .jnum 1)]])])]

/-- In the batch branch, once `data.requests` is an array its elements
are appended to the client's requests sequence no matter what the errors
field later does (the requests push precedes any errors-side throw). -/
theorem batchStep_requests (s1 : SrvState) (extId : String) (df : List (String × JVal))
    (rs : List JVal) (hR : (JVal.jobj df).prop "requests" = .jarr rs) :
    (batchStep s1 extId (.jobj df)).2.store.requests
      = alPush s1.store.requests extId rs := by
  have hpr : (JVal.jobj df).propE "requests" = .ok ((JVal.jobj df).prop "requests") := by
    simp [JVal.propE, isNullish_jobj]
  have hpe : (JVal.jobj df).propE "errors" = .ok ((JVal.jobj df).prop "errors") := by
    simp [JVal.propE, isNullish_jobj]
  by_cases hte : ((JVal.jobj df).prop "errors").truthy
  · cases hsp : ((JVal.jobj df).prop "errors").spreadElems with
    | error e2 => simp [batchStep, hpr, hpe, hR, truthy_jarr, spreadElems_jarr, hte, hsp]
    | ok es => simp [batchStep, hpr, hpe, hR, truthy_jarr, spreadElems_jarr, hte, hsp]
  · simp [batchStep, hpr, hpe, hR, truthy_jarr, spreadElems_jarr, hte]

/-- In the batch branch, an errors array is appended — and the call
succeeds — provided the requests field did not throw first, i.e. it is
falsy or itself an array. -/
theorem batchStep_errors (s1 : SrvState) (extId : String) (df : List (String × JVal))
    (es : List JVal) (hEr : (JVal.jobj df).prop "errors" = .jarr es)
    (hReq : ((JVal.jobj df).prop "requests").truthy = false ∨
      ∃ rs, (JVal.jobj df).prop "requests" = .jarr rs) :
    (batchStep s1 extId (.jobj df)).1 = successReceived ∧
    (batchStep s1 extId (.jobj df)).2.store.errors
      = alPush s1.store.errors extId es := by
  have hpr : (JVal.jobj df).propE "requests" = .ok ((JVal.jobj df).prop "requests") := by
    simp [JVal.propE, isNullish_jobj]
  have hpe : (JVal.jobj df).propE "errors" = .ok ((JVal.jobj df).prop "errors") := by
    simp [JVal.propE, isNullish_jobj]
  rcases hReq with hf | ⟨rs, hrs⟩
  · constructor <;> simp [batchStep, hpr, hpe, hf, hEr, truthy_jarr, spreadElems_jarr]
  · constructor <;> simp [batchStep, hpr, hpe, hrs, hEr, truthy_jarr, spreadElems_jarr]

/-- Counterexample to claim C3 as stated: in this batch call
`data.errors` is an array with one element, yet the handler responds 500
(the spread of the truthy non-iterable `data.requests` throws first) and
nothing is ever appended to the client's in-memory errors sequence. -/
theorem claim_C3_counterexample :
    (badBatchBody.prop "extensionId").truthy = true ∧
    badBatchBody.prop "type" = .jstr "batch" ∧
    (badBatchBody.prop "data").prop "errors" = .jarr [.jobj [("e", .jnum 1)]] ∧
    (handleAnalytics {} badBatchBody 0 "ip" none).1.status = 500 ∧
    alGet (handleAnalytics {} badBatchBody 0 "ip" none).2.store.errors "ext1" = none ∧
    dashTotalErrors (handleAnalytics {} badBatchBody 0 "ip" none).2 = 0 :=
  ⟨rfl, rfl, rfl, rfl, rfl, rfl⟩

/-- Claim C3, amended: for a batch analytics call with a valid
extensionId and object data, (a) if data.requests is an array, all of
its elements are appended in order to the in-memory requests sequence
and the dashboard total grows accordingly, regardless of the errors
field; and (b) if data.errors is an array, all of its elements are
appended to the errors sequence and the call succeeds, provided the
requests field did not throw first (it is falsy or itself an array). -/
theorem claim_C3 (s : SrvState) (body : JVal) (now : Int) (ip : String) (ua : Option String)
    (e : String) (df : List (String × JVal))
    (hE : body.prop "extensionId" = .jstr e) (he : e ≠ "")
    (hT : body.prop "type" = .jstr "batch")
    (hData : body.prop "data" = .jobj df) :
    (∀ rs : List JVal, (JVal.jobj df).prop "requests" = .jarr rs →
      alGet (handleAnalytics s body now ip ua).2.store.requests e
        = some (((alGet s.store.requests e).getD []) ++ rs) ∧
      dashTotalRequests (handleAnalytics s body now ip ua).2
        = dashTotalRequests s + rs.length) ∧
    (∀ es : List JVal, (JVal.jobj df).prop "errors" = .jarr es →
      (((JVal.jobj df).prop "requests").truthy = false ∨
        ∃ rs, (JVal.jobj df).prop "requests" = .jarr rs) →
      (handleAnalytics s body now ip ua).1 = successReceived ∧
      alGet (handleAnalytics s body now ip ua).2.store.errors e
        = some (((alGet s.store.errors e).getD []) ++ es) ∧
      dashTotalErrors (handleAnalytics s body now ip ua).2
        = dashTotalErrors s + es.length) := by
  have hnn := isNullish_false_of_prop hE
  constructor
  · intro rs hR
    have hbs : ∀ s1 : SrvState, (batchStep s1 e (.jobj df)).2.store.requests
        = alPush s1.store.requests e rs := fun s1 => batchStep_requests s1 e df rs hR
    have hreq : (handleAnalytics s body now ip ua).2.store.requests
        = alPush s.store.requests e rs := by
      simp [handleAnalytics, hnn, hE, hT, hData, he, pathSeg, truthy_jstr, hbs]
    constructor
    · rw [hreq]
      exact alGet_alPush_self _ _ _
    · show (handleAnalytics s body now ip ua).2.store.requests.foldl
          (fun acc p => acc + p.2.length) 0 = dashTotalRequests s + rs.length
      rw [hreq, foldl_add_length, sum_lengths_alPush]
      show 0 + ((s.store.requests.map (fun p => p.2.length)).sum + rs.length)
        = s.store.requests.foldl (fun acc p => acc + p.2.length) 0 + rs.length
      rw [foldl_add_length]
      omega
  · intro es hEr hReq
    have hbs1 : ∀ s1 : SrvState, (batchStep s1 e (.jobj df)).1 = successReceived :=
      fun s1 => (batchStep_errors s1 e df es hEr hReq).1
    have hbs2 : ∀ s1 : SrvState, (batchStep s1 e (.jobj df)).2.store.errors
        = alPush s1.store.errors e es := fun s1 => (batchStep_errors s1 e df es hEr hReq).2
    have hok : (handleAnalytics s body now ip ua).1 = successReceived := by
      simp [handleAnalytics, hnn, hE, hT, hData, he, pathSeg, truthy_jstr, hbs1]
    have herr : (handleAnalytics s body now ip ua).2.store.errors
        = alPush s.store.errors e es := by
      simp [handleAnalytics, hnn, hE, hT, hData, he, pathSeg, truthy_jstr, hbs2]
    refine ⟨hok, ?_, ?_⟩
    · rw [herr]
      exact alGet_alPush_self _ _ _
    · show (handleAnalytics s body now ip ua).2.store.errors.foldl
          (fun acc p => acc + p.2.length) 0 = dashTotalErrors s + es.length
      rw [herr, foldl_add_length, sum_lengths_alPush]
      show 0 + ((s.store.errors.map (fun p => p.2.length)).sum + es.length)
        = s.store.errors.foldl (fun acc p => acc + p.2.length) 0 + es.length
      rw [foldl_add_length]
      omega

/-- Witness for C3 (amended): both parts at the concrete
two-requests-one-error batch, growing the totals from 0 to 2 and 1. -/
theorem claim_C3_witness :
    (alGet (handleAnalytics {} batchBody 0 "ip" none).2.store.requests "ext1"
       = some [.jobj [("a", .jnum 1)], .jobj [("b", .jnum 2)]] ∧
     dashTotalRequests (handleAnalytics {} batchBody 0 "ip" none).2 = 2) ∧
    ((handleAnalytics {} batchBody 0 "ip" none).1 = successReceived ∧
     alGet (handleAnalytics {} batchBody 0 "ip" none).2.store.errors "ext1"
       = some [.jobj [("e", .jnum 1)]] ∧
     dashTotalErrors (handleAnalytics {} batchBody 0 "ip" none).2 = 1) :=
  ⟨(claim_C3 {} batchBody 0 "ip" none "ext1"
      [("requests", .jarr [.jobj [("a", .jnum 1)], .jobj [("b", .jnum 2)]]),
       ("errors", .jarr [.jobj [("e", .jnum 1)]])] rfl (by decide) rfl rfl).1
      [.jobj [("a", .jnum 1)], .jobj [("b", .jnum 2)]] rfl,
   (claim_C3 {} batchBody 0 "ip" none "ext1"
      [("requests", .jarr [.jobj [("a", .jnum 1)], .jobj [("b", .jnum 2)]]),
       ("errors", .jarr [.jobj [("e", .jnum 1)]])] rfl (by decide) rfl rfl).2
      [.jobj [("e", .jnum 1)]] rfl
      (Or.inr ⟨[.jobj [("a", .jnum 1)], .jobj [("b", .jnum 2)]], rfl⟩)⟩

/-- Counterexample to claim C7 as stated: a batch analytics call with a
valid extensionId but no data field throws (`data.requests` on
`undefined`) and responds 500, not success. -/
theorem claim_C7_counterexample :
    ((JVal.jobj [("extensionId", .jstr "ext1"), ("type", .jstr "batch")]).prop
        "extensionId").truthy = true ∧
    (handleAnalytics {} (.jobj [("extensionId", .jstr "ext1"), ("type", .jstr "batch")])
        0 "ip" none).1.status = 500 :=
  ⟨rfl, rfl⟩

/-- Claim C7 as amended: every analytics call with a valid extensionId
is acknowledged with success — except that when the declared type is
"batch", the data field must be non-nullish and its truthy
requests/errors fields must be spreadable, otherwise the handler throws
and responds 500. -/
theorem claim_C7 (s : SrvState) (body : JVal) (now : Int) (ip : String)
    (ua : Option String) (e : String)
    (hE : body.prop "extensionId" = .jstr e) (he : e ≠ "")
    (hbatch : body.prop "type" = .jstr "batch" →
      ((body.prop "data").isNullish = false ∧
       (((body.prop "data").prop "requests").truthy = true →
         ∃ rs, ((body.prop "data").prop "requests").spreadElems = .ok rs) ∧
       (((body.prop "data").prop "errors").truthy = true →
         ∃ es, ((body.prop "data").prop "errors").spreadElems = .ok es))) :
    (handleAnalytics s body now ip ua).1 = successReceived := by
  have hnn := isNullish_false_of_prop hE
  cases hty : body.prop "type" with
  | jstr tstr =>
    by_cases h1 : tstr = "request"
    · subst h1
      simp [handleAnalytics, hnn, hE, hty, he, pathSeg, truthy_jstr]
    · by_cases h2 : tstr = "error"
      · subst h2
        simp [handleAnalytics, hnn, hE, hty, he, pathSeg, truthy_jstr]
      · by_cases h3 : tstr = "batch"
        · subst h3
          obtain ⟨hd1, hd2, hd3⟩ := hbatch hty
          have hpr : (body.prop "data").propE "requests"
              = .ok ((body.prop "data").prop "requests") := by
            simp [JVal.propE, hd1]
          have hpe : (body.prop "data").propE "errors"
              = .ok ((body.prop "data").prop "errors") := by
            simp [JVal.propE, hd1]
          have hbs : ∀ s1 : SrvState,
              (batchStep s1 e (body.prop "data")).1 = successReceived := by
            intro s1
            by_cases ht1 : ((body.prop "data").prop "requests").truthy
            · obtain ⟨rs, hrs⟩ := hd2 ht1
              by_cases ht2 : ((body.prop "data").prop "errors").truthy
              · obtain ⟨es, hes⟩ := hd3 ht2
                simp [batchStep, hpr, hpe, ht1, ht2, hrs, hes]
              · simp [batchStep, hpr, hpe, ht1, ht2, hrs]
            · by_cases ht2 : ((body.prop "data").prop "errors").truthy
              · obtain ⟨es, hes⟩ := hd3 ht2
                simp [batchStep, hpr, hpe, ht1, ht2, hes]
              · simp [batchStep, hpr, hpe, ht1, ht2]
          simp [handleAnalytics, hnn, hE, hty, he, pathSeg, truthy_jstr, hbs]
        · simp [handleAnalytics, hnn, hE, hty, he, pathSeg, truthy_jstr, h1, h2, h3]
  | jnull => simp [handleAnalytics, hnn, hE, hty, he, pathSeg, truthy_jstr]
  | jundef => simp [handleAnalytics, hnn, hE, hty, he, pathSeg, truthy_jstr]
  | jbool b => simp [handleAnalytics, hnn, hE, hty, he, pathSeg, truthy_jstr]
  | jnum n => simp [handleAnalytics, hnn, hE, hty, he, pathSeg, truthy_jstr]
  | jarr xs => simp [handleAnalytics, hnn, hE, hty, he, pathSeg, truthy_jstr]
  | jobj fs => simp [handleAnalytics, hnn, hE, hty, he, pathSeg, truthy_jstr]

/-- Witness for C7 (amended): a well-formed batch call is acknowledged
with success. -/
theorem claim_C7_witness :
    (handleAnalytics {} batchBody 0 "ip" none).1 = successReceived :=
  claim_C7 {} batchBody 0 "ip" none "ext1" rfl (by decide)
    (fun _ => ⟨rfl, fun _ => ⟨[.jobj [("a", .jnum 1)], .jobj [("b", .jnum 2)]], rfl⟩,
      fun _ => ⟨[.jobj [("e", .jnum 1)]], rfl⟩⟩)

/-- Claim C2: the dashboard's domain tally counts, for every key, one
count per stored request payload whose truthy domain field coerces to
that key; topDomains keeps at most ten entries, sorted by descending
count and dominating every dropped entry; and after three stats posts of
example.com the dashboard reports the entry ("example.com", 3). -/
theorem claim_C2 :
    (∀ (requests : List (String × List JVal)) (m : List (String × Nat)),
      domainStatsOf requests = .ok m →
      ∀ k : String, tallyGet m k = domainCount requests k) ∧
    (∀ m : List (String × Nat),
      (topTen m).Pairwise (fun a b => b.2 ≤ a.2) ∧
      (topTen m).length ≤ 10 ∧
      ∀ x ∈ m, x ∉ topTen m → ∀ y ∈ topTen m, x.2 ≤ y.2) ∧
    (handleDashboard scenarioC2 0).map (fun d => d.topDomains)
      = .ok [("example.com", 3)] := by
  refine ⟨?_, ?_, ?_⟩
  · intro requests m h k
    exact domainStats_ok_tally requests m k h
  · intro m
    exact ⟨topTen_sorted m, topTen_length_le m, topTen_dominated m⟩
  · have h : domainStatsOf scenarioC2.store.requests = .ok [("example.com", 3)] := rfl
    simp [handleDashboard, h, topTen, Except.map]

/-- Witness for C2's hypothesis-carrying parts, at the concrete
three-post scenario. -/
theorem claim_C2_witness :
    tallyGet [("example.com", 3)] "example.com"
      = domainCount scenarioC2.store.requests "example.com" ∧
    (topTen [("example.com", 3)]).Pairwise (fun a b => b.2 ≤ a.2) :=
  ⟨claim_C2.1 scenarioC2.store.requests [("example.com", 3)] rfl "example.com",
   (claim_C2.2.1 [("example.com", 3)]).1⟩
